import Mathlib

/-!
Verification of the classification-and-ranking engine of `YouDownloader.py`
(YouTube 4k-8k-HDR-VR video downloader).

The Python source works on `yt-dlp` format dictionaries.  We embed the
relevant fragment shallowly:

* a raw format dictionary becomes `RawFmt`, every field an `Option`
  (a missing dictionary key is `none`; `dict.get(k, d)` becomes `Option.getD`);
* the video-metadata dictionary becomes `Meta` (`info` itself may be `None`,
  hence `Option Meta` below);
* the entry dictionaries built by `get_video_info` become `VEntry`/`AEntry`;
* the option dictionaries assembled by `display_format_options` become `Opt`;
* Python `keyword in text` substring tests become `occurs`;
* Python `str.lower()` becomes `lower` (ASCII case folding);
* the only operation in the modelled fragment that can raise is dictionary
  subscripting (`fmt['format_id']`, `fmt['ext']` in `get_video_info`), so the
  bucketing loop is embedded in `Except` (`buildBucketsE`), with `.error`
  marking a `KeyError`.
-/

namespace YouDownloader

/-! ### String primitives -/

/-- ASCII case folding of one character, modelling Python `str.lower()`
on the ASCII range. -/
def pyLower (c : Char) : Char :=
  if 'A' ≤ c ∧ c ≤ 'Z' then Char.ofNat (c.toNat + 32) else c

/-- Model of Python `s.lower()`. -/
def lower (s : String) : String := String.mk (s.data.map pyLower)

/-- Does the first character list lead the second one? (prefix test). -/
def leadHit : List Char → List Char → Bool
  | [], _ => true
  | _ :: _, [] => false
  | a :: as, b :: bs => a = b && leadHit as bs

/-- Substring occurrence on character lists. -/
def occursL : List Char → List Char → Bool
  | p, [] => leadHit p []
  | p, s :: rest => leadHit p (s :: rest) || occursL p rest

/-- Model of Python `kw in s` for strings (substring containment). -/
def occurs (kw s : String) : Bool := occursL kw.data s.data

/-- Model of Python `sep.join(parts)`. -/
def joinSep (sep : String) : List String → String
  | [] => ""
  | [x] => x
  | x :: y :: xs => x ++ sep ++ joinSep sep (y :: xs)

/-- Model of Python `s[:n]` (first `n` characters). -/
def takeChars (n : Nat) (s : String) : String := String.mk (s.data.take n)

/-- Rendering of an optional number inside a Python f-string:
a missing value (`None`) prints as `"None"`. -/
def pyStrOptNat : Option Nat → String
  | none => "None"
  | some n => toString n

/-! ### Data model -/

/-- The video-metadata dictionary (only the fields the engine reads). -/
structure Meta where
  title : Option String
  description : Option String
deriving DecidableEq

/-- A raw format dictionary as returned by the extraction backend.  Every
field is optional: a missing key is `none`. -/
structure RawFmt where
  format_id : Option String
  ext : Option String
  format_note : Option String
  resolution : Option String
  height : Option Nat
  width : Option Nat
  fps : Option Nat
  vbr : Option Nat
  abr : Option Nat
  filesize : Option Nat
  vcodec : Option String
  acodec : Option String
deriving DecidableEq

/-- A video-bucket entry dictionary built by `get_video_info` (source lines
171-186 and 189-202).  `acodec`/`abr` carry `none` for a video-only entry,
whose dictionary has no such keys. -/
structure VEntry where
  format_id : String
  ext : String
  resolution : String
  height : Option Nat
  width : Option Nat
  filesize : Option Nat
  vcodec : String
  acodec : Option String
  fps : Option Nat
  vbr : Option Nat
  abr : Option Nat
  type : String
  video_types : List String
  format_note : String
deriving DecidableEq

/-- An audio-bucket entry dictionary built by `get_video_info`
(source lines 205-212). -/
structure AEntry where
  format_id : String
  ext : String
  abr : Option Nat
  filesize : Option Nat
  acodec : String
deriving DecidableEq

/-- An option dictionary assembled by `display_format_options`.  The quick
and VR-special options carry a `description` key; the ranked audio/video
options do not (`description := none`), and only the latter carry an
`info` entry (`vinfo`/`ainfo`). -/
structure Opt where
  num : Nat
  description : Option String
  format : String
  ext : String
  type : String
  vinfo : Option VEntry
  ainfo : Option AEntry
deriving DecidableEq

/-! ### TypeDetector (`detect_video_type`, source lines 54-115) -/

/-- Lowered `fmt.get('format_note', '')`. -/
def lowNote (f : RawFmt) : String := lower (f.format_note.getD "")

/-- Lowered `fmt.get('format_id', '')`. -/
def lowId (f : RawFmt) : String := lower (f.format_id.getD "")

/-- Lowered `info.get('title', '')` guarded by `if info else` (source line 58). -/
def lowTitle : Option Meta → String
  | none => ""
  | some i => lower (i.title.getD "")

/-- Lowered `info.get('description', '')` guarded by `if info else`. -/
def lowDesc : Option Meta → String
  | none => ""
  | some i => lower (i.description.getD "")

/-- The ordered stereoscopic keyword table (source lines 64-75).  Python
dictionaries iterate in insertion order, so the list order is the
detection priority. -/
def stereo_keywords : List (String × String) :=
  [("3d", "3D"), ("stereoscopic", "3D"), ("stereo", "3D"),
   ("sbs", "SBS-3D"), ("side by side", "SBS-3D"), ("side-by-side", "SBS-3D"),
   ("top bottom", "TB-3D"), ("top-bottom", "TB-3D"),
   ("anaglyph", "Anaglyph-3D"), ("dual fisheye", "DualFisheye-3D")]

/-- The ordered immersive keyword table (source lines 83-89). -/
def vr_keywords : List (String × String) :=
  [("360", "360°"), ("vr", "VR"), ("virtual reality", "VR"),
   ("spherical", "360°"), ("equirectangular", "360°-EQR")]

/-- 180° keywords (source line 97). -/
def vr180_keywords : List String := ["180", "vr180", "half sphere", "hemispherical"]

/-- HDR keywords (source line 104). -/
def hdr_keywords : List String :=
  ["hdr", "hdr10", "hdr10+", "dolby vision", "high dynamic range", "rec2020", "bt2020"]

/-- The stereoscopic scan loop (source lines 77-80): walk the ordered
keyword table, append the tag of the first keyword occurring in the
format note, title or description, and `break`. -/
def stereoScan (note title desc : String) : List (String × String) → List String
  | [] => []
  | (kw, tg) :: rest =>
    if occurs kw note || occurs kw title || occurs kw desc then [tg]
    else stereoScan note title desc rest

/-- Shared shape of the accumulating scan loops (source lines 91-108):
for each table row whose keyword hits, append the row tag unless it is
already present in the accumulated list. -/
def accumStep {β : Type} (hit : β → Bool) (tagOf : β → String)
    (acc : List String) : List β → List String
  | [] => acc
  | b :: rest =>
    accumStep hit tagOf
      (if hit b && !(acc.contains (tagOf b)) then acc ++ [tagOf b] else acc) rest

/-- The immersive scan (source lines 91-94). -/
def vrStep (note title desc : String) (acc : List String) : List String :=
  accumStep (fun p => occurs p.1 note || occurs p.1 title || occurs p.1 desc)
    Prod.snd acc vr_keywords

/-- The 180° scan (source lines 98-101). -/
def step180 (note title desc : String) (acc : List String) : List String :=
  accumStep (fun kw => occurs kw note || occurs kw title || occurs kw desc)
    (fun _ => "180°") acc vr180_keywords

/-- The HDR scan (source lines 105-108); it reads only the format note and
the format identifier. -/
def hdrStep (note fid : String) (acc : List String) : List String :=
  accumStep (fun kw => occurs kw note || occurs kw fid) (fun _ => "HDR") acc hdr_keywords

/-- The tag list accumulated by the four scans of `detect_video_type`,
before the final 3D-plus-180° combination step (source lines 56-108). -/
def preTags (fmt : RawFmt) (info : Option Meta) : List String :=
  let format_note := lowNote fmt
  let format_id := lowId fmt
  let title := lowTitle info
  let description := lowDesc info
  hdrStep format_note format_id
    (step180 format_note title description
      (vrStep format_note title description
        (stereoScan format_note title description stereo_keywords)))

/-- The special combination step (source lines 111-113): when the list
holds a tag containing `"3D"` together with `"180°"`, both are replaced
by the single tag `"3D-180°-VR"`. -/
def combineStep (video_type : List String) : List String :=
  if video_type.any (fun vtype => occurs "3D" vtype) && video_type.contains "180°" then
    "3D-180°-VR" :: video_type.filter (fun vtype => !(occurs "3D" vtype) && vtype != "180°")
  else video_type

/-- The function `detect_video_type` (source lines 54-115). -/
def detect_video_type (fmt : RawFmt) (info : Option Meta) : List String :=
  combineStep (preTags fmt info)

/-! ### ResolutionClassifier (`get_enhanced_resolution_info`, source lines 117-139)

The function reads the keys `height`, `width` and `resolution` of a format
dictionary; it is embedded over those three optional values.  Note that the
source guard is `if height and width:`, Python truthiness, so a present but
zero height or width also takes the fallback branch. -/

/-- The height-tier chain of `get_enhanced_resolution_info` (source lines 124-135). -/
def resTier (height : Nat) : String :=
  if height ≥ 4320 then "8K"
  else if height ≥ 2160 then "4K"
  else if height ≥ 1440 then "2K"
  else if height ≥ 1080 then "1080p"
  else if height ≥ 720 then "720p"
  else toString height ++ "p"

/-- The function `get_enhanced_resolution_info` (source lines 117-139). -/
def get_enhanced_resolution_info (height width : Option Nat) (resolution : Option String) :
    String :=
  match height, width with
  | some h, some w =>
    if h ≠ 0 ∧ w ≠ 0 then
      resTier h ++ " (" ++ toString w ++ "x" ++ toString h ++ ")"
    else resolution.getD "Unknown resolution"
  | _, _ => resolution.getD "Unknown resolution"

/-! ### FormatAggregator (the loop of `get_video_info`, source lines 165-213) -/

/-- The video+audio entry dictionary (source lines 171-186). -/
def muxedEntry (f : RawFmt) (video_types : List String) (fid ex : String) : VEntry :=
  { format_id := fid
    ext := ex
    resolution := f.resolution.getD "unknown"
    height := f.height
    width := f.width
    filesize := f.filesize
    vcodec := f.vcodec.getD "unknown"
    acodec := some (f.acodec.getD "unknown")
    fps := f.fps
    vbr := f.vbr
    abr := f.abr
    type := "video+audio"
    video_types := video_types
    format_note := f.format_note.getD "" }

/-- The video-only entry dictionary (source lines 189-202); it has no
`acodec` and no `abr` key. -/
def videoOnlyEntry (f : RawFmt) (video_types : List String) (fid ex : String) : VEntry :=
  { format_id := fid
    ext := ex
    resolution := f.resolution.getD "unknown"
    height := f.height
    width := f.width
    filesize := f.filesize
    vcodec := f.vcodec.getD "unknown"
    acodec := none
    fps := f.fps
    vbr := f.vbr
    abr := none
    type := "video_only"
    video_types := video_types
    format_note := f.format_note.getD "" }

/-- The audio-only entry dictionary (source lines 205-212). -/
def audioEntry (f : RawFmt) (fid ex : String) : AEntry :=
  { format_id := fid
    ext := ex
    abr := f.abr
    filesize := f.filesize
    acodec := f.acodec.getD "unknown" }

/-- One iteration of the bucketing loop (source lines 165-212).  The branch
conditions compare `fmt.get('vcodec')` / `fmt.get('acodec')` against the
sentinel string `"none"`; a missing key gives Python `None`, which is
different from `"none"`.  The dictionary subscripts `fmt['format_id']` and
`fmt['ext']` raise `KeyError` on a missing key, modelled by `.error`
(`format_id` is evaluated first in the dictionary literal). -/
def procOne (info : Option Meta) (f : RawFmt) :
    Except String (List VEntry × List AEntry) :=
  let video_types := detect_video_type f info
  if f.vcodec ≠ some "none" ∧ f.acodec ≠ some "none" then
    match f.format_id, f.ext with
    | some fid, some ex => .ok ([muxedEntry f video_types fid ex], [])
    | none, _ => .error "KeyError: format_id"
    | some _, none => .error "KeyError: ext"
  else if f.vcodec ≠ some "none" ∧ f.acodec = some "none" then
    match f.format_id, f.ext with
    | some fid, some ex => .ok ([videoOnlyEntry f video_types fid ex], [])
    | none, _ => .error "KeyError: format_id"
    | some _, none => .error "KeyError: ext"
  else if f.acodec ≠ some "none" ∧ f.vcodec = some "none" then
    match f.format_id, f.ext with
    | some fid, some ex => .ok ([], [audioEntry f fid ex])
    | none, _ => .error "KeyError: format_id"
    | some _, none => .error "KeyError: ext"
  else .ok ([], [])

/-- The whole bucketing loop of `get_video_info` (source lines 165-213):
partition the raw formats into the video and audio buckets, preserving
order; propagate the first raised `KeyError`. -/
def buildBucketsE : List RawFmt → Option Meta → Except String (List VEntry × List AEntry)
  | [], _ => .ok ([], [])
  | f :: rest, info =>
    match procOne info f, buildBucketsE rest info with
    | .ok h, .ok t => .ok (h.1 ++ t.1, h.2 ++ t.2)
    | .error e, _ => .error e
    | .ok _, .error e => .error e

/-! ### OptionRanker (sorting and deduplication inside `display_format_options`,
source lines 372-394 and 401-444) -/

/-- The composite video sort key (source lines 402-426).  The outer guard is
`if fmt.get('video_types'):` — Python truthiness of the list, that is
non-emptiness; `x or 0` maps a missing numeric value to 0. -/
def special_priority (video_types : List String) : Nat :=
  if video_types.isEmpty then 0
  else if "SBS-3D" ∈ video_types ∧ "180°" ∈ video_types then 2000
  else if "3D-180°-VR" ∈ video_types then 1800
  else if "SBS-3D" ∈ video_types then 1500
  else if "HDR" ∈ video_types then 1000
  else if "360°" ∈ video_types ∨ "VR" ∈ video_types then 500
  else if video_types.any (fun vtype => occurs "3D" vtype) then 300
  else if "180°" ∈ video_types then 200
  else 0

/-- The function `sort_key` (source lines 402-426): the tuple
`(special_priority, height or 0, fps or 0, vbr or 0)`. -/
def sort_key (fmt : VEntry) : Nat × Nat × Nat × Nat :=
  (special_priority fmt.video_types, fmt.height.getD 0, fmt.fps.getD 0, fmt.vbr.getD 0)

/-- Lexicographic order on the sort-key tuple. -/
def tupLe (a b : Nat × Nat × Nat × Nat) : Bool :=
  if a.1 ≠ b.1 then decide (a.1 < b.1)
  else if a.2.1 ≠ b.2.1 then decide (a.2.1 < b.2.1)
  else if a.2.2.1 ≠ b.2.2.1 then decide (a.2.2.1 < b.2.2.1)
  else decide (a.2.2.2 ≤ b.2.2.2)

/-- Model of `video_formats.sort(key=sort_key, reverse=True)` (source line 428):
a stable descending sort on the key tuple. -/
def pySortVideo (l : List VEntry) : List VEntry :=
  l.mergeSort (fun a b => tupLe (sort_key b) (sort_key a))

/-- Model of `audio_formats.sort(key=lambda x: x.get('abr') or 0, reverse=True)`
(source line 373): a stable descending sort on the bitrate, a missing
bitrate counting as 0. -/
def pySortAudio (l : List AEntry) : List AEntry :=
  l.mergeSort (fun a b => decide (b.abr.getD 0 ≤ a.abr.getD 0))

/-- The video deduplication key string (source line 433):
`f"{fmt['ext']}_{fmt.get('height', 0)}_{fmt.get('fps', 0)}_{fmt.get('vcodec', 'unknown')[:10]}_{special_types_str}"`.
The entry dictionary always carries the `height`/`fps` keys, so the
f-string renders their value — `None` prints as `"None"`. -/
def vkeyStr (fmt : VEntry) : String :=
  fmt.ext ++ "_" ++ pyStrOptNat fmt.height ++ "_" ++ pyStrOptNat fmt.fps ++ "_" ++
    takeChars 10 fmt.vcodec ++ "_" ++ joinSep "+" fmt.video_types

/-- The audio deduplication key string (source line 377):
`f"{fmt['ext']}_{fmt.get('abr', 0)}"`. -/
def akeyStr (fmt : AEntry) : String :=
  fmt.ext ++ "_" ++ pyStrOptNat fmt.abr

/-- The survivors of the video deduplication loop (source lines 430-436):
keep an entry when its key is unseen and fewer than 20 keys were kept. -/
def dedupGo : List VEntry → List String → List VEntry
  | [], _ => []
  | f :: rest, displayed_video =>
    if vkeyStr f ∉ displayed_video ∧ displayed_video.length < 20 then
      f :: dedupGo rest (vkeyStr f :: displayed_video)
    else dedupGo rest displayed_video

/-- Uncapped first-occurrence deduplication by video key, for comparison
with the capped loop. -/
def keyEraseGo : List VEntry → List String → List VEntry
  | [], _ => []
  | f :: rest, seen =>
    if vkeyStr f ∉ seen then f :: keyEraseGo rest (vkeyStr f :: seen)
    else keyEraseGo rest seen

/-- The option dictionary appended per surviving video entry
(source lines 438-444). -/
def mkVideoOpt (fmt : VEntry) (n : Nat) : Opt :=
  { num := n, description := none, format := fmt.format_id, ext := fmt.ext,
    type := "video", vinfo := some fmt, ainfo := none }

/-- The option dictionary appended per surviving audio entry
(source lines 381-387). -/
def mkAudioOpt (fmt : AEntry) (n : Nat) : Opt :=
  { num := n, description := none, format := fmt.format_id, ext := fmt.ext,
    type := "audio", vinfo := none, ainfo := some fmt }

/-- The video loop of `display_format_options` (source lines 430-498):
deduplicate with the 20-entry cap and number each emitted option. -/
def videoLoop : List VEntry → List String → Nat → List Opt
  | [], _, _ => []
  | f :: rest, displayed_video, option_num =>
    if vkeyStr f ∉ displayed_video ∧ displayed_video.length < 20 then
      mkVideoOpt f option_num :: videoLoop rest (vkeyStr f :: displayed_video) (option_num + 1)
    else videoLoop rest displayed_video option_num

/-- The audio loop of `display_format_options` (source lines 375-394):
deduplicate by audio key (no cap) and number each emitted option. -/
def audioLoop : List AEntry → List String → Nat → List Opt
  | [], _, _ => []
  | f :: rest, displayed_audio, option_num =>
    if akeyStr f ∉ displayed_audio then
      mkAudioOpt f option_num :: audioLoop rest (akeyStr f :: displayed_audio) (option_num + 1)
    else audioLoop rest displayed_audio option_num

/-- Consecutive numbering of a list of surviving video entries, used to
relate `videoLoop` to `dedupGo`. -/
def numberFrom : Nat → List VEntry → List Opt
  | _, [] => []
  | n, f :: rest => mkVideoOpt f n :: numberFrom (n + 1) rest

/-! ### Rendering of the formats list (`str(video_formats)`, source line 287)

The SBS-evidence check of the VR-special block stringifies the whole video
bucket with Python `str`, which renders a list of dictionaries.  The
rendering is modelled below: dictionary keys appear in insertion order,
strings are rendered by `repr` (quote selection plus escaping of the
backslash, the quote character and common control characters), a missing
numeric value prints as `None`. -/

/-- Escape one character inside a Python string `repr` with quote `q`. -/
def pyEscChar (q c : Char) : String :=
  if c = '\\' then "\\\\"
  else if c = q then "\\" ++ String.mk [q]
  else if c = '\n' then "\\n"
  else if c = '\t' then "\\t"
  else if c = '\r' then "\\r"
  else String.mk [c]

/-- Model of Python `repr` of a string: single quotes, switching to double
quotes when the text holds a single quote but no double quote. -/
def pyReprStr (s : String) : String :=
  let q : Char := if s.data.contains '\x27' && !(s.data.contains '"') then '"' else '\x27'
  String.mk [q] ++ String.join (s.data.map (pyEscChar q)) ++ String.mk [q]

/-- Python `str` of a list of strings. -/
def pyStrTagList (l : List String) : String :=
  "[" ++ joinSep ", " (l.map pyReprStr) ++ "]"

/-- One `key: value` item of a dictionary rendering. -/
def pyItem (k v : String) : String := pyReprStr k ++ ": " ++ v

/-- Python `str` of one video-bucket entry dictionary, with the key sets
and insertion order of source lines 171-186 (muxed) and 189-202
(video-only). -/
def pyStrVEntry (f : VEntry) : String :=
  let common :=
    [pyItem "format_id" (pyReprStr f.format_id),
     pyItem "ext" (pyReprStr f.ext),
     pyItem "resolution" (pyReprStr f.resolution),
     pyItem "height" (pyStrOptNat f.height),
     pyItem "width" (pyStrOptNat f.width),
     pyItem "filesize" (pyStrOptNat f.filesize),
     pyItem "vcodec" (pyReprStr f.vcodec)]
  let tail :=
    [pyItem "type" (pyReprStr f.type),
     pyItem "video_types" (pyStrTagList f.video_types),
     pyItem "format_note" (pyReprStr f.format_note)]
  let mid :=
    if f.type = "video+audio" then
      [pyItem "acodec" (pyReprStr (f.acodec.getD "unknown")),
       pyItem "fps" (pyStrOptNat f.fps),
       pyItem "vbr" (pyStrOptNat f.vbr),
       pyItem "abr" (pyStrOptNat f.abr)]
    else
      [pyItem "fps" (pyStrOptNat f.fps),
       pyItem "vbr" (pyStrOptNat f.vbr)]
  "\x7b" ++ joinSep ", " (common ++ mid ++ tail) ++ "\x7d"

/-- Python `str(video_formats)`: the rendering of the whole video bucket. -/
def pyStrVList (l : List VEntry) : String :=
  "[" ++ joinSep ", " (l.map pyStrVEntry) ++ "]"

/-! ### OptionListBuilder (`display_format_options`, source lines 262-503) -/

/-- The VR-indicator list (source line 276). -/
def vrIndicators : List String :=
  ["360", "vr", "180", "3d", "stereoscopic", "virtual reality"]

/-- The VR-content heuristic (source lines 272-277): fires when the lowered
title or description holds one of the indicators; `info` itself must be
truthy. -/
def isVRContent (info : Option Meta) : Bool :=
  match info with
  | none => false
  | some _ =>
    vrIndicators.any (fun indicator =>
      occurs indicator (lowTitle info) || occurs indicator (lowDesc info))

/-- The flag `has_3d_180` (source line 285): some one of title and description holds
both `"3d"` and `"180"`. -/
def has3d180 (title description : String) : Bool :=
  [title, description].any (fun t => occurs "3d" t && occurs "180" t)

/-- The flag `has_sbs` (source lines 286-287): side-by-side evidence in the title,
the description, or the `str` rendering of the whole video-format list. -/
def hasSbsEvidence (title description rendered : String) : Bool :=
  [title, description, rendered].any (fun text =>
    occurs "sbs" text || occurs "side by side" text || occurs "side-by-side" text)

/-- The conditional 3D-180°-SBS special option (source lines 290-296). -/
def sbsOpt (n : Nat) : Opt :=
  { num := n, description := some "🥽 Best 3D 180° VR (Side-by-Side MKV)",
    format := "bestvideo+bestaudio/best", ext := "mkv", type := "3d_180_sbs_video",
    vinfo := none, ainfo := none }

/-- The 360° VR special option (source lines 300-306). -/
def vr360Opt (n : Nat) : Opt :=
  { num := n, description := some "🌐 Best 360° VR Video (MKV)",
    format := "bestvideo+bestaudio/best", ext := "mkv", type := "vr_360_video",
    vinfo := none, ainfo := none }

/-- The 180° VR special option (source lines 310-316). -/
def vr180Opt (n : Nat) : Opt :=
  { num := n, description := some "📹 Best 180° VR Video (MKV)",
    format := "bestvideo+bestaudio/best", ext := "mkv", type := "vr_180_video",
    vinfo := none, ainfo := none }

/-- The 3D stereoscopic special option (source lines 320-326). -/
def threeDOpt (n : Nat) : Opt :=
  { num := n, description := some "🥽 Best 3D Stereoscopic Video (MKV)",
    format := "bestvideo+bestaudio/best", ext := "mkv", type := "3d_video",
    vinfo := none, ainfo := none }

/-- The VR-special block (source lines 280-328): the SBS option is emitted
only on 3D-180° or SBS evidence; the 360°, 180° and 3D options follow
unconditionally, each taking the next ordinal. -/
def vrSpecialOpts (video_formats : List VEntry) (title description : String) (n : Nat) :
    List Opt :=
  if has3d180 title description || hasSbsEvidence title description (pyStrVList video_formats)
  then [sbsOpt n, vr360Opt (n + 1), vr180Opt (n + 2), threeDOpt (n + 3)]
  else [vr360Opt n, vr180Opt (n + 1), threeDOpt (n + 2)]

/-- The three always-present quick options (source lines 334-365). -/
def quickOpts (n : Nat) : List Opt :=
  [{ num := n, description := some "🎬 Best Quality Video (MKV - Supports 4K/8K/HDR)",
     format := "bestvideo+bestaudio/best", ext := "mkv", type := "quick_video_mkv",
     vinfo := none, ainfo := none },
   { num := n + 1, description := some "🎬 Best Quality Video (MP4 - More Compatible)",
     format := "bestvideo[ext=mp4]+bestaudio[ext=m4a]/best[ext=mp4]/best", ext := "mp4",
     type := "quick_video_mp4", vinfo := none, ainfo := none },
   { num := n + 2, description := some "🎵 Best Quality Audio (MP3 320kbps)",
     format := "bestaudio/best", ext := "mp3", type := "quick_audio",
     vinfo := none, ainfo := none }]

/-- The function `display_format_options` (source lines 262-503): the assembled option
list — VR-special block (when the heuristic fires), quick options, ranked
audio options, ranked video options, with one running ordinal starting
at 1. -/
def display_format_options (video_formats : List VEntry) (audio_formats : List AEntry)
    (info : Option Meta) : List Opt :=
  let specials :=
    if isVRContent info then
      vrSpecialOpts video_formats (lowTitle info) (lowDesc info) 1
    else []
  let n1 := 1 + specials.length
  let quicks := quickOpts n1
  let n2 := n1 + 3
  let audios := audioLoop (pySortAudio audio_formats) [] n2
  let n3 := n2 + audios.length
  let videos := videoLoop (pySortVideo video_formats) [] n3
  specials ++ quicks ++ audios ++ videos

/-- The section index of an option: VR-special, quick, audio, video. -/
def secIdx (o : Opt) : Nat :=
  if o.type = "3d_180_sbs_video" ∨ o.type = "vr_360_video" ∨
     o.type = "vr_180_video" ∨ o.type = "3d_video" then 0
  else if o.type = "quick_video_mkv" ∨ o.type = "quick_video_mp4" ∨
          o.type = "quick_audio" then 1
  else if o.type = "audio" then 2
  else 3

/-! ### Tag families and specification-side definitions -/

/-- The stereoscopic tag family (spec names ThreeD, SBS3D, TB3D, Anaglyph3D,
DualFisheye3D). -/
def stereoFamily : List String := ["3D", "SBS-3D", "TB-3D", "Anaglyph-3D", "DualFisheye-3D"]

/-- Every tag string `detect_video_type` can ever emit. -/
def tagUniverse : List String :=
  stereoFamily ++ ["360°", "VR", "360°-EQR", "180°", "HDR", "3D-180°-VR"]

/-- The special-priority table exactly as claim C2 states it, with the spec
tag VR360 read as the code tags `"360°"`/`"VR"` and VR360EQR as
`"360°-EQR"`; in particular row five fires on VR360 **or** VR360EQR. -/
def specPriorityC2 (video_types : List String) : Nat :=
  if "SBS-3D" ∈ video_types ∧ "180°" ∈ video_types then 2000
  else if "3D-180°-VR" ∈ video_types then 1800
  else if "SBS-3D" ∈ video_types then 1500
  else if "HDR" ∈ video_types then 1000
  else if "360°" ∈ video_types ∨ "VR" ∈ video_types ∨ "360°-EQR" ∈ video_types then 500
  else if video_types.any stereoFamily.contains then 300
  else if "180°" ∈ video_types then 200
  else 0

/-- The amended priority table: identical to claim C2 except that row five
fires only on the VR360 tags (`"360°"`/`"VR"`), not on VR360EQR. -/
def amendedPriority (video_types : List String) : Nat :=
  if "SBS-3D" ∈ video_types ∧ "180°" ∈ video_types then 2000
  else if "3D-180°-VR" ∈ video_types then 1800
  else if "SBS-3D" ∈ video_types then 1500
  else if "HDR" ∈ video_types then 1000
  else if "360°" ∈ video_types ∨ "VR" ∈ video_types then 500
  else if video_types.any stereoFamily.contains then 300
  else if "180°" ∈ video_types then 200
  else 0

/-- The bucket contribution of one descriptor exactly as claim C4 states it,
with "present" meaning "different from the sentinel `some "none"`"
(a missing key, `none`, counts as present). -/
def specC4Buckets (f : RawFmt) (video_types : List String) (fid ex : String) :
    List VEntry × List AEntry :=
  if f.vcodec ≠ some "none" then
    if f.acodec ≠ some "none" then ([muxedEntry f video_types fid ex], [])
    else ([videoOnlyEntry f video_types fid ex], [])
  else if f.acodec ≠ some "none" then ([], [audioEntry f fid ex])
  else ([], [])

/-! ### Concrete fixtures used by the witness theorems -/

/-- A raw format whose note carries both SBS and 180° evidence. -/
def c1fmt : RawFmt :=
  { format_id := none, ext := none, format_note := some "sbs 180",
    resolution := none, height := none, width := none, fps := none,
    vbr := none, abr := none, filesize := none, vcodec := none, acodec := none }

/-- A video entry whose only tag is `"360°-EQR"` (spec tag VR360EQR). -/
def eqrEntry : VEntry :=
  { format_id := "1", ext := "mp4", resolution := "unknown", height := some 1080,
    width := some 1920, filesize := none, vcodec := "vp9", acodec := none,
    fps := none, vbr := none, abr := none, type := "video_only",
    video_types := ["360°-EQR"], format_note := "" }

/-- A video entry tagged HDR only, with every optional numeric field absent. -/
def c2entry : VEntry :=
  { format_id := "2", ext := "mp4", resolution := "unknown", height := none,
    width := none, filesize := none, vcodec := "vp9", acodec := none,
    fps := none, vbr := none, abr := none, type := "video_only",
    video_types := ["HDR"], format_note := "" }

/-- A raw format with required identifier fields present and everything
else missing. -/
def c3fmt : RawFmt :=
  { format_id := some "18", ext := some "mp4", format_note := none,
    resolution := none, height := none, width := none, fps := none,
    vbr := none, abr := none, filesize := none, vcodec := none, acodec := none }

/-- A muxed raw format (both codecs carried, neither the sentinel). -/
def c4fmt : RawFmt :=
  { format_id := some "22", ext := some "mp4", format_note := none,
    resolution := none, height := some 720, width := some 1280, fps := some 30,
    vbr := some 500, abr := some 96, filesize := none,
    vcodec := some "avc1", acodec := some "mp4a" }

/-- A raw format carrying the `"none"` sentinel in both codec fields. -/
def c4drop : RawFmt :=
  { format_id := some "0", ext := some "mhtml", format_note := none,
    resolution := none, height := none, width := none, fps := none,
    vbr := none, abr := none, filesize := none,
    vcodec := some "none", acodec := some "none" }

/-- A raw format missing both codec keys entirely. -/
def c9fmt : RawFmt :=
  { format_id := some "18", ext := some "mp4", format_note := none,
    resolution := none, height := some 360, width := some 640, fps := none,
    vbr := none, abr := none, filesize := none, vcodec := none, acodec := none }

/-- A raw format carrying the `"none"` sentinel in both codec fields. -/
def c9drop : RawFmt :=
  { format_id := none, ext := none, format_note := none,
    resolution := none, height := none, width := none, fps := none,
    vbr := none, abr := none, filesize := none,
    vcodec := some "none", acodec := some "none" }

/-- A video entry whose format note carries SBS evidence, while the metadata
below does not mention it. -/
def c10entry : VEntry :=
  { format_id := "313", ext := "webm", resolution := "unknown", height := some 2160,
    width := some 3840, filesize := none, vcodec := "vp9", acodec := none,
    fps := some 60, vbr := some 2000, abr := none, type := "video_only",
    video_types := [], format_note := "sbs" }

/-- Metadata whose title fires the VR heuristic without any SBS or 3D-180
evidence of its own. -/
def c10meta : Meta := { title := some "vr video", description := none }

/-! ### Helper lemmas about the scans -/

theorem countP_accumStep {β : Type} (hit : β → Bool) (tagOf : β → String) :
    ∀ kws : List β, (∀ b ∈ kws, stereoFamily.contains (tagOf b) = false) →
    ∀ acc : List String,
      (accumStep hit tagOf acc kws).countP stereoFamily.contains =
        acc.countP stereoFamily.contains := by
  intro kws
  induction kws with
  | nil => intro _ acc; rfl
  | cons b rest ih =>
    intro h acc
    rw [accumStep, ih (fun x hx => h x (List.mem_cons_of_mem _ hx))]
    by_cases hc : (hit b && !(acc.contains (tagOf b))) = true
    · rw [if_pos hc, List.countP_append]
      have hb : tagOf b ∉ stereoFamily := by simpa using h b (List.mem_cons_self _ _)
      simp [List.countP_cons, hb]
    · rw [if_neg hc]

theorem stereoScan_length_le (note title desc : String) :
    ∀ kws : List (String × String), (stereoScan note title desc kws).length ≤ 1 := by
  intro kws
  induction kws with
  | nil => simp [stereoScan]
  | cons p rest ih =>
    rcases p with ⟨kw, tg⟩
    by_cases hc : (occurs kw note || occurs kw title || occurs kw desc) = true
    · simp [stereoScan, hc]
    · simpa [stereoScan, hc] using ih

theorem stereoScan_eq_find (note title desc : String) :
    ∀ kws : List (String × String),
      stereoScan note title desc kws =
        (Option.map Prod.snd (kws.find? fun p =>
          occurs p.1 note || occurs p.1 title || occurs p.1 desc)).toList := by
  intro kws
  induction kws with
  | nil => rfl
  | cons p rest ih =>
    rcases p with ⟨kw, tg⟩
    by_cases hc : (occurs kw note || occurs kw title || occurs kw desc) = true
    · simp [stereoScan, hc, List.find?_cons_of_pos]
    · simpa [stereoScan, hc, List.find?_cons_of_neg] using ih

theorem countP_preTags_le_one (fmt : RawFmt) (info : Option Meta) :
    (preTags fmt info).countP stereoFamily.contains ≤ 1 := by
  rw [preTags, hdrStep, step180, vrStep]
  rw [countP_accumStep _ _ _ (by decide)]
  rw [countP_accumStep _ _ _ (by decide)]
  rw [countP_accumStep _ _ _ (by decide)]
  exact le_trans (List.countP_le_length _) (stereoScan_length_le _ _ _ _)

/-- C7: the stereoscopic scan walks the fixed ordered keyword list
(3d, stereoscopic, stereo, sbs, side by side, side-by-side, top bottom,
top-bottom, anaglyph, dual fisheye), tests each keyword against the format
note, title and description, and stops at the first keyword hitting any of
the three texts, so the accumulated tag list holds at most one
stereoscopic-family tag before the combination step, and which one is
fixed by keyword-list order, not by text order. -/
theorem c7_stereo_first_match (fmt : RawFmt) (info : Option Meta) :
    (preTags fmt info).countP stereoFamily.contains ≤ 1 ∧
    stereoScan (lowNote fmt) (lowTitle info) (lowDesc info) stereo_keywords =
      (Option.map Prod.snd (stereo_keywords.find? fun p =>
        occurs p.1 (lowNote fmt) || occurs p.1 (lowTitle info) ||
          occurs p.1 (lowDesc info))).toList :=
  ⟨countP_preTags_le_one fmt info, stereoScan_eq_find _ _ _ _⟩

/-! ### The 3D-plus-180° combination step (claim C1) -/

theorem combineStep_fires (vt : List String)
    (h1 : ∃ s ∈ stereoFamily, s ∈ vt) (h2 : "180°" ∈ vt) :
    combineStep vt =
      "3D-180°-VR" :: vt.filter (fun vtype => !(occurs "3D" vtype) && vtype != "180°") := by
  obtain ⟨s, hsf, hsv⟩ := h1
  have hocc : occurs "3D" s = true := by
    simp only [stereoFamily, List.mem_cons, List.not_mem_nil, or_false] at hsf
    rcases hsf with rfl | rfl | rfl | rfl | rfl <;> decide
  have hany : vt.any (fun vtype => occurs "3D" vtype) = true :=
    List.any_eq_true.mpr ⟨s, hsv, hocc⟩
  have hcont : vt.contains "180°" = true := by simpa using h2
  rw [combineStep, if_pos (by simp [hany, hcont, h2])]

/-- C1: whenever the accumulated tag list holds a stereoscopic-family tag
together with the 180° tag, the returned tag list holds the combined
`3D-180°-VR` tag, holds no stereoscopic tag and no 180° tag, and keeps each
independent tag (360°, VR, 360°-EQR, HDR) exactly when it was accumulated. -/
theorem c1_combination_rule (fmt : RawFmt) (info : Option Meta)
    (h1 : ∃ s ∈ stereoFamily, s ∈ preTags fmt info)
    (h2 : "180°" ∈ preTags fmt info) :
    "3D-180°-VR" ∈ detect_video_type fmt info ∧
    (∀ s ∈ stereoFamily, s ∉ detect_video_type fmt info) ∧
    "180°" ∉ detect_video_type fmt info ∧
    (∀ t ∈ (["360°", "VR", "360°-EQR", "HDR"] : List String),
      (t ∈ detect_video_type fmt info ↔ t ∈ preTags fmt info)) := by
  have hfire := combineStep_fires (preTags fmt info) h1 h2
  rw [detect_video_type] at *
  rw [hfire]
  refine ⟨List.mem_cons_self _ _, ?_, ?_, ?_⟩
  · intro s hsf hmem
    have hocc : occurs "3D" s = true := by
      simp only [stereoFamily, List.mem_cons, List.not_mem_nil, or_false] at hsf
      rcases hsf with rfl | rfl | rfl | rfl | rfl <;> decide
    have hne : s ≠ "3D-180°-VR" := by
      simp only [stereoFamily, List.mem_cons, List.not_mem_nil, or_false] at hsf
      rcases hsf with rfl | rfl | rfl | rfl | rfl <;> decide
    rcases List.mem_cons.mp hmem with h | h
    · exact hne h
    · have := (List.mem_filter.mp h).2
      rw [hocc] at this
      simp at this
  · intro hmem
    rcases List.mem_cons.mp hmem with h | h
    · exact absurd h (by decide)
    · have := (List.mem_filter.mp h).2
      simp at this
  · intro t ht
    have hne : t ≠ "3D-180°-VR" := by
      simp only [List.mem_cons, List.not_mem_nil, or_false] at ht
      rcases ht with rfl | rfl | rfl | rfl <;> decide
    have hp : (fun vtype => !(occurs "3D" vtype) && vtype != "180°") t = true := by
      simp only [List.mem_cons, List.not_mem_nil, or_false] at ht
      rcases ht with rfl | rfl | rfl | rfl <;> decide
    constructor
    · intro hmem
      rcases List.mem_cons.mp hmem with h | h
      · exact absurd h hne
      · exact (List.mem_filter.mp h).1
    · intro hmem
      exact List.mem_cons_of_mem _ (List.mem_filter.mpr ⟨hmem, hp⟩)

/-- Witness for C1 at a concrete descriptor whose format note is
`"sbs 180"`. -/
theorem c1_witness :
    (∃ s ∈ stereoFamily, s ∈ preTags c1fmt none) ∧ "180°" ∈ preTags c1fmt none ∧
    ("3D-180°-VR" ∈ detect_video_type c1fmt none ∧
     (∀ s ∈ stereoFamily, s ∉ detect_video_type c1fmt none) ∧
     "180°" ∉ detect_video_type c1fmt none ∧
     (∀ t ∈ (["360°", "VR", "360°-EQR", "HDR"] : List String),
       (t ∈ detect_video_type c1fmt none ↔ t ∈ preTags c1fmt none))) :=
  ⟨by decide, by decide, c1_combination_rule c1fmt none (by decide) (by decide)⟩

/-! ### The video sort key (claim C2) -/

theorem any3D_eq_any_stereo (vt : List String)
    (h : ∀ t ∈ vt, t ∈ tagUniverse) (h2 : "3D-180°-VR" ∉ vt) :
    (vt.any fun vtype => occurs "3D" vtype) = vt.any stereoFamily.contains := by
  induction vt with
  | nil => rfl
  | cons a l ih =>
    simp only [List.any_cons]
    have ha : a ∈ tagUniverse := h a (List.mem_cons_self _ _)
    have ha2 : a ≠ "3D-180°-VR" := fun hx => h2 (hx ▸ List.mem_cons_self _ _)
    have hhead : occurs "3D" a = stereoFamily.contains a := by
      simp only [tagUniverse, stereoFamily, List.mem_append, List.mem_cons,
        List.not_mem_nil, or_false] at ha
      rcases ha with ((rfl | rfl | rfl | rfl | rfl) | (rfl | rfl | rfl | rfl | rfl | rfl)) <;>
        first
        | rfl
        | exact absurd rfl ha2
    rw [hhead, ih (fun t ht => h t (List.mem_cons_of_mem _ ht))
      (fun hx => h2 (List.mem_cons_of_mem _ hx))]

theorem special_priority_amended (vt : List String)
    (h : ∀ t ∈ vt, t ∈ tagUniverse) :
    special_priority vt = amendedPriority vt := by
  by_cases hE : vt.isEmpty = true
  · rw [List.isEmpty_iff.mp hE]; decide
  · rw [special_priority, amendedPriority, if_neg hE]
    by_cases h1 : "SBS-3D" ∈ vt ∧ "180°" ∈ vt
    · rw [if_pos h1, if_pos h1]
    · rw [if_neg h1, if_neg h1]
      by_cases h2 : "3D-180°-VR" ∈ vt
      · rw [if_pos h2, if_pos h2]
      · rw [if_neg h2, if_neg h2]
        by_cases h3 : "SBS-3D" ∈ vt
        · rw [if_pos h3, if_pos h3]
        · rw [if_neg h3, if_neg h3]
          by_cases h4 : "HDR" ∈ vt
          · rw [if_pos h4, if_pos h4]
          · rw [if_neg h4, if_neg h4]
            by_cases h5 : "360°" ∈ vt ∨ "VR" ∈ vt
            · rw [if_pos h5, if_pos h5]
            · rw [if_neg h5, if_neg h5, any3D_eq_any_stereo vt h h2]

/-- Counterexample to C2 as stated: a descriptor whose only tag is
`"360°-EQR"` (spec tag VR360EQR) receives special priority 0 from
`sort_key`, while the claimed table assigns it 500. -/
theorem c2_counterexample :
    sort_key eqrEntry = (0, 1080, 0, 0) ∧
    specPriorityC2 eqrEntry.video_types = 500 ∧ (0 : Nat) ≠ 500 := by decide

/-- C2 amended: for every video-bucket descriptor whose tags come from the
detector's tag universe, `sort_key` is the descending tuple
`(priority, height, fps, vbr)` with absent numeric fields as 0, where the
priority follows the claimed table except that row five fires only on the
VR360 tags (`"360°"`/`"VR"`), not on VR360EQR. -/
theorem c2_sort_key_amended (fmt : VEntry)
    (h : ∀ t ∈ fmt.video_types, t ∈ tagUniverse) :
    sort_key fmt =
      (amendedPriority fmt.video_types, fmt.height.getD 0, fmt.fps.getD 0, fmt.vbr.getD 0) := by
  rw [sort_key, special_priority_amended fmt.video_types h]

/-- Witness for the amended C2 at a concrete HDR-tagged entry. -/
theorem c2_witness :
    (∀ t ∈ c2entry.video_types, t ∈ tagUniverse) ∧
    sort_key c2entry =
      (amendedPriority c2entry.video_types, c2entry.height.getD 0,
        c2entry.fps.getD 0, c2entry.vbr.getD 0) :=
  ⟨by decide, c2_sort_key_amended c2entry (by decide)⟩

/-! ### Totality and bucketing (claims C3, C4, C9) -/

theorem procOne_ok (info : Option Meta) (f : RawFmt)
    (hf1 : f.format_id ≠ none) (hf2 : f.ext ≠ none) :
    ∃ q, procOne info f = Except.ok q := by
  obtain ⟨fid, hfid⟩ := Option.ne_none_iff_exists'.mp hf1
  obtain ⟨ex, hex⟩ := Option.ne_none_iff_exists'.mp hf2
  rw [procOne, hfid, hex]
  split_ifs <;> exact ⟨_, rfl⟩

/-- C3: the classification pipeline is total — the bucketing loop returns a
result (never a `KeyError`) whenever the required identifier fields are
present, however many optional fields are absent; a missing format note is
read as the empty string by the detector; missing numeric fields enter the
sort key as 0; and a missing resolution display falls back to the
`"Unknown resolution"` sentinel. -/
theorem c3_pipeline_total :
    (∀ (fmts : List RawFmt) (info : Option Meta),
      (∀ f ∈ fmts, f.format_id ≠ none ∧ f.ext ≠ none) →
      ∃ p, buildBucketsE fmts info = Except.ok p) ∧
    (∀ (f : RawFmt) (info : Option Meta), f.format_note = none →
      detect_video_type f info = detect_video_type { f with format_note := some "" } info) ∧
    (∀ e : VEntry, e.height = none → e.fps = none → e.vbr = none →
      sort_key e = (special_priority e.video_types, 0, 0, 0)) ∧
    (∀ resolution : Option String,
      get_enhanced_resolution_info none none resolution =
        resolution.getD "Unknown resolution") := by
  refine ⟨?_, ?_, ?_, ?_⟩
  · intro fmts info h
    induction fmts with
    | nil => exact ⟨([], []), rfl⟩
    | cons f rest ih =>
      obtain ⟨p, hp⟩ := ih (fun g hg => h g (List.mem_cons_of_mem _ hg))
      obtain ⟨hf1, hf2⟩ := h f (List.mem_cons_self _ _)
      obtain ⟨q, hq⟩ := procOne_ok info f hf1 hf2
      exact ⟨(q.1 ++ p.1, q.2 ++ p.2), by rw [buildBucketsE, hq, hp]⟩
  · intro f info hnote
    simp [detect_video_type, preTags, lowNote, lowId, hnote]
  · intro e h1 h2 h3
    rw [sort_key, h1, h2, h3]; rfl
  · intro resolution; rfl

/-- Witness for C3 at concrete inputs. -/
theorem c3_witness :
    (∃ p, buildBucketsE [c3fmt] none = Except.ok p) ∧
    detect_video_type c3fmt none = detect_video_type { c3fmt with format_note := some "" } none ∧
    sort_key c2entry = (special_priority c2entry.video_types, 0, 0, 0) ∧
    get_enhanced_resolution_info none none (some "720x480") = "720x480" :=
  ⟨c3_pipeline_total.1 [c3fmt] none
      (by intro f hf; rw [List.mem_singleton] at hf; subst hf; exact ⟨by decide, by decide⟩),
   c3_pipeline_total.2.1 c3fmt none rfl,
   c3_pipeline_total.2.2.1 c2entry rfl rfl rfl,
   by simpa using c3_pipeline_total.2.2.2 (some "720x480")⟩

theorem procOne_spec (info : Option Meta) (f : RawFmt) (fid ex : String)
    (hfid : f.format_id = some fid) (hex : f.ext = some ex) :
    procOne info f = Except.ok (specC4Buckets f (detect_video_type f info) fid ex) := by
  by_cases hv : f.vcodec = some "none" <;> by_cases ha : f.acodec = some "none" <;>
    simp [procOne, specC4Buckets, hv, ha, hfid, hex]

theorem buildBucketsE_drop (g : RawFmt) (info : Option Meta)
    (hg1 : g.vcodec = some "none") (hg2 : g.acodec = some "none") :
    ∀ pre post : List RawFmt,
      buildBucketsE (pre ++ g :: post) info = buildBucketsE (pre ++ post) info := by
  intro pre
  induction pre with
  | nil =>
    intro post
    have hg : procOne info g = Except.ok ([], []) := by simp [procOne, hg1, hg2]
    rw [List.nil_append, List.nil_append, buildBucketsE, hg]
    cases hres : buildBucketsE post info <;> simp
  | cons a pre ih =>
    intro post
    rw [List.cons_append, List.cons_append, buildBucketsE, buildBucketsE, ih post]

/-- C4: with the sentinel `"none"` meaning an absent codec, one descriptor
contributes exactly the claimed buckets — muxed or video-only entries go to
the video bucket, audio-only entries to the audio bucket — and a descriptor
carrying the sentinel in both codec fields is dropped silently, adding
nothing to either bucket and raising nothing, wherever it sits in the
input list. -/
theorem c4_bucket_classification :
    (∀ (f : RawFmt) (info : Option Meta) (fid ex : String),
      f.format_id = some fid → f.ext = some ex →
      buildBucketsE [f] info =
        Except.ok (specC4Buckets f (detect_video_type f info) fid ex)) ∧
    (∀ (pre post : List RawFmt) (g : RawFmt) (info : Option Meta),
      g.vcodec = some "none" → g.acodec = some "none" →
      buildBucketsE (pre ++ g :: post) info = buildBucketsE (pre ++ post) info) := by
  constructor
  · intro f info fid ex hfid hex
    rw [buildBucketsE, procOne_spec info f fid ex hfid hex, buildBucketsE]
    simp
  · intro pre post g info hg1 hg2
    exact buildBucketsE_drop g info hg1 hg2 pre post

/-- Witness for C4: a muxed descriptor lands in the video bucket, and a
dropped descriptor leaves the result of its list unchanged. -/
theorem c4_witness :
    buildBucketsE [c4fmt] none =
      Except.ok (specC4Buckets c4fmt (detect_video_type c4fmt none) "22" "mp4") ∧
    buildBucketsE [c4fmt, c4drop] none = buildBucketsE [c4fmt] none :=
  ⟨c4_bucket_classification.1 c4fmt none "22" "mp4" rfl rfl,
   by simpa using c4_bucket_classification.2 [c4fmt] [] c4drop none rfl rfl⟩

/-- C9: a codec field that is missing entirely (Python `None`, not the
string `"none"`) counts as present — a descriptor missing both codec keys
is classified muxed and goes to the video bucket — and the silent drop
happens exactly when both codec fields carry the literal sentinel
`"none"`. -/
theorem c9_missing_codec_treated_present :
    (∀ (f : RawFmt) (info : Option Meta) (fid ex : String),
      f.format_id = some fid → f.ext = some ex →
      f.vcodec = none → f.acodec = none →
      buildBucketsE [f] info =
        Except.ok ([muxedEntry f (detect_video_type f info) fid ex], [])) ∧
    (∀ (g : RawFmt) (info : Option Meta),
      buildBucketsE [g] info = Except.ok ([], []) ↔
        (g.vcodec = some "none" ∧ g.acodec = some "none")) := by
  constructor
  · intro f info fid ex hfid hex hv ha
    simp [buildBucketsE, procOne, hfid, hex, hv, ha]
  · intro g info
    constructor
    · intro h
      by_cases hv : g.vcodec = some "none" <;> by_cases ha : g.acodec = some "none"
      · exact ⟨hv, ha⟩
      all_goals
        rcases hfid : g.format_id with _ | fid <;> rcases hex : g.ext with _ | ex <;>
          simp [buildBucketsE, procOne, hv, ha, hfid, hex] at h
    · intro ⟨hv, ha⟩
      simp [buildBucketsE, procOne, hv, ha]

/-- Witness for C9: a descriptor with no codec keys at all becomes a muxed
video entry, and the drop equivalence at a sentinel-carrying descriptor. -/
theorem c9_witness :
    (c9fmt.vcodec = none ∧ c9fmt.acodec = none) ∧
    buildBucketsE [c9fmt] none =
      Except.ok ([muxedEntry c9fmt (detect_video_type c9fmt none) "18" "mp4"], []) ∧
    (buildBucketsE [c9drop] none = Except.ok ([], []) ↔
      (c9drop.vcodec = some "none" ∧ c9drop.acodec = some "none")) :=
  ⟨⟨rfl, rfl⟩,
   c9_missing_codec_treated_present.1 c9fmt none "18" "mp4" rfl rfl rfl rfl,
   c9_missing_codec_treated_present.2 c9drop none⟩

/-! ### Video deduplication (claim C5) -/

theorem videoLoop_eq_numberFrom :
    ∀ (l : List VEntry) (seen : List String) (n : Nat),
      videoLoop l seen n = numberFrom n (dedupGo l seen) := by
  intro l
  induction l with
  | nil => intro seen n; rfl
  | cons f rest ih =>
    intro seen n
    by_cases hc : vkeyStr f ∉ seen ∧ seen.length < 20
    · rw [videoLoop, dedupGo, if_pos hc, if_pos hc, numberFrom, ih]
    · rw [videoLoop, dedupGo, if_neg hc, if_neg hc, ih]

theorem dedupGo_key_not_mem_seen :
    ∀ (l : List VEntry) (seen : List String) (f : VEntry),
      f ∈ dedupGo l seen → vkeyStr f ∉ seen := by
  intro l
  induction l with
  | nil => intro seen f hf; simp [dedupGo] at hf
  | cons g rest ih =>
    intro seen f hf
    by_cases hc : vkeyStr g ∉ seen ∧ seen.length < 20
    · rw [dedupGo, if_pos hc] at hf
      rcases List.mem_cons.mp hf with rfl | hf
      · exact hc.1
      · intro hx
        exact ih _ f hf (List.mem_cons_of_mem _ hx)
    · rw [dedupGo, if_neg hc] at hf
      exact ih _ f hf

theorem dedupGo_pairwise_keys :
    ∀ (l : List VEntry) (seen : List String),
      (dedupGo l seen).Pairwise (fun a b => vkeyStr a ≠ vkeyStr b) := by
  intro l
  induction l with
  | nil => intro seen; simp [dedupGo]
  | cons g rest ih =>
    intro seen
    by_cases hc : vkeyStr g ∉ seen ∧ seen.length < 20
    · rw [dedupGo, if_pos hc]
      refine List.pairwise_cons.mpr ⟨?_, ih _⟩
      intro b hb hx
      exact dedupGo_key_not_mem_seen rest _ b hb (hx ▸ List.mem_cons_self _ _)
    · rw [dedupGo, if_neg hc]
      exact ih _

theorem dedupGo_eq_take :
    ∀ (l : List VEntry) (seen : List String), seen.length ≤ 20 →
      dedupGo l seen = (keyEraseGo l seen).take (20 - seen.length) := by
  intro l
  induction l with
  | nil => intro seen _; simp [dedupGo, keyEraseGo]
  | cons f rest ih =>
    intro seen hlen
    by_cases hmem : vkeyStr f ∉ seen
    · by_cases hsz : seen.length < 20
      · rw [dedupGo, if_pos ⟨hmem, hsz⟩, keyEraseGo, if_pos hmem]
        have harith : 20 - seen.length = (20 - (vkeyStr f :: seen).length) + 1 := by
          simp only [List.length_cons]; omega
        rw [harith, List.take_succ_cons,
          ih (vkeyStr f :: seen) (by simp only [List.length_cons]; omega)]
      · have h20 : seen.length = 20 := by omega
        rw [dedupGo, if_neg (by simp [hsz]), keyEraseGo, if_pos hmem,
          ih seen hlen, h20]
        simp
    · rw [not_not] at hmem
      rw [dedupGo, if_neg (by simp [hmem]), keyEraseGo, if_neg (by simp [hmem]),
        ih seen hlen]

/-- C5: the ranked video output is the consecutive numbering of the
deduplicated list; the surviving entries have pairwise distinct
deduplication keys (container extension, height, fps, first-10 characters
of the codec, joined tag set); at most 20 survive; and the survivors are
exactly the first 20 entries of the uncapped first-occurrence
deduplication of the sorted list, i.e. for each key the first occurrence
in descending sort order is kept and the 20 highest-priority survivors
remain. -/
theorem c5_video_dedup_cap (vf : List VEntry) (n : Nat) :
    videoLoop (pySortVideo vf) [] n = numberFrom n (dedupGo (pySortVideo vf) []) ∧
    (dedupGo (pySortVideo vf) []).Pairwise (fun a b => vkeyStr a ≠ vkeyStr b) ∧
    (dedupGo (pySortVideo vf) []).length ≤ 20 ∧
    dedupGo (pySortVideo vf) [] = (keyEraseGo (pySortVideo vf) []).take 20 := by
  have htake := dedupGo_eq_take (pySortVideo vf) [] (by simp)
  simp only [List.length_nil, Nat.sub_zero] at htake
  refine ⟨videoLoop_eq_numberFrom _ _ _, dedupGo_pairwise_keys _ _, ?_, htake⟩
  rw [htake]
  exact List.length_take_le _ _

/-! ### Ordinals and section order (claim C6) -/

theorem range'_glue (s a b : Nat) :
    List.range' s a ++ List.range' (s + a) b = List.range' s (a + b) := by
  have h := List.range'_append s a b 1
  rw [Nat.one_mul] at h
  rw [h, Nat.add_comm]

theorem map_num_chain {l1 l2 : List Opt} {s : Nat}
    (h1 : l1.map Opt.num = List.range' s l1.length)
    (h2 : l2.map Opt.num = List.range' (s + l1.length) l2.length) :
    (l1 ++ l2).map Opt.num = List.range' s (l1 ++ l2).length := by
  rw [List.map_append, h1, h2, List.length_append, range'_glue]

theorem videoLoop_map_num :
    ∀ (l : List VEntry) (seen : List String) (n : Nat),
      (videoLoop l seen n).map Opt.num = List.range' n (videoLoop l seen n).length := by
  intro l
  induction l with
  | nil => intro seen n; rfl
  | cons f rest ih =>
    intro seen n
    by_cases hc : vkeyStr f ∉ seen ∧ seen.length < 20
    · rw [videoLoop, if_pos hc, List.map_cons, List.length_cons, List.range'_succ, ih]; rfl
    · rw [videoLoop, if_neg hc]; exact ih _ _

theorem audioLoop_map_num :
    ∀ (l : List AEntry) (seen : List String) (n : Nat),
      (audioLoop l seen n).map Opt.num = List.range' n (audioLoop l seen n).length := by
  intro l
  induction l with
  | nil => intro seen n; rfl
  | cons f rest ih =>
    intro seen n
    by_cases hc : akeyStr f ∉ seen
    · rw [audioLoop, if_pos hc, List.map_cons, List.length_cons, List.range'_succ, ih]; rfl
    · rw [audioLoop, if_neg hc]; exact ih _ _

theorem quickOpts_map_num (n : Nat) :
    (quickOpts n).map Opt.num = List.range' n (quickOpts n).length := rfl

theorem vrSpecialOpts_map_num (vf : List VEntry) (t d : String) (n : Nat) :
    (vrSpecialOpts vf t d n).map Opt.num =
      List.range' n (vrSpecialOpts vf t d n).length := by
  rw [vrSpecialOpts]
  split <;> rfl

theorem assembled_map_num (s : List Opt) (af : List AEntry) (vf : List VEntry)
    (hs : s.map Opt.num = List.range' 1 s.length) :
    (s ++ quickOpts (1 + s.length) ++
      audioLoop (pySortAudio af) [] (1 + s.length + 3) ++
      videoLoop (pySortVideo vf) []
        (1 + s.length + 3 +
          (audioLoop (pySortAudio af) [] (1 + s.length + 3)).length)).map Opt.num =
      List.range' 1
        (s ++ quickOpts (1 + s.length) ++
          audioLoop (pySortAudio af) [] (1 + s.length + 3) ++
          videoLoop (pySortVideo vf) []
            (1 + s.length + 3 +
              (audioLoop (pySortAudio af) [] (1 + s.length + 3)).length)).length := by
  rw [List.append_assoc, List.append_assoc]
  exact map_num_chain hs
    (map_num_chain (quickOpts_map_num _)
      (map_num_chain (audioLoop_map_num _ _ _) (videoLoop_map_num _ _ _)))

theorem secIdx_mem_videoLoop :
    ∀ (l : List VEntry) (seen : List String) (n : Nat),
      ∀ o ∈ videoLoop l seen n, secIdx o = 3 := by
  intro l
  induction l with
  | nil => intro seen n o ho; simp [videoLoop] at ho
  | cons f rest ih =>
    intro seen n o ho
    by_cases hc : vkeyStr f ∉ seen ∧ seen.length < 20
    · rw [videoLoop, if_pos hc] at ho
      rcases List.mem_cons.mp ho with rfl | ho
      · rfl
      · exact ih _ _ o ho
    · rw [videoLoop, if_neg hc] at ho
      exact ih _ _ o ho

theorem secIdx_mem_audioLoop :
    ∀ (l : List AEntry) (seen : List String) (n : Nat),
      ∀ o ∈ audioLoop l seen n, secIdx o = 2 := by
  intro l
  induction l with
  | nil => intro seen n o ho; simp [audioLoop] at ho
  | cons f rest ih =>
    intro seen n o ho
    by_cases hc : akeyStr f ∉ seen
    · rw [audioLoop, if_pos hc] at ho
      rcases List.mem_cons.mp ho with rfl | ho
      · rfl
      · exact ih _ _ o ho
    · rw [audioLoop, if_neg hc] at ho
      exact ih _ _ o ho

theorem secIdx_mem_quickOpts (n : Nat) : ∀ o ∈ quickOpts n, secIdx o = 1 := by
  intro o ho
  simp only [quickOpts, List.mem_cons, List.not_mem_nil, or_false] at ho
  rcases ho with rfl | rfl | rfl <;> rfl

theorem secIdx_mem_vrSpecialOpts (vf : List VEntry) (t d : String) (n : Nat) :
    ∀ o ∈ vrSpecialOpts vf t d n, secIdx o = 0 := by
  intro o ho
  rw [vrSpecialOpts] at ho
  split at ho <;>
    · simp only [List.mem_cons, List.not_mem_nil, or_false] at ho
      rcases ho with rfl | rfl | rfl | rfl <;> rfl

theorem pairwise_const_le {l : List Opt} {c : Nat} (h : ∀ o ∈ l, secIdx o = c) :
    l.Pairwise (fun a b => secIdx a ≤ secIdx b) :=
  List.pairwise_of_forall_mem_list (fun a ha b hb => by rw [h a ha, h b hb])

theorem assembled_pairwise (s q a v : List Opt)
    (hs : ∀ o ∈ s, secIdx o = 0) (hq : ∀ o ∈ q, secIdx o = 1)
    (ha : ∀ o ∈ a, secIdx o = 2) (hv : ∀ o ∈ v, secIdx o = 3) :
    (s ++ q ++ a ++ v).Pairwise (fun x y => secIdx x ≤ secIdx y) := by
  refine List.pairwise_append.mpr ⟨List.pairwise_append.mpr
    ⟨List.pairwise_append.mpr ⟨pairwise_const_le hs, pairwise_const_le hq, ?_⟩,
      pairwise_const_le ha, ?_⟩, pairwise_const_le hv, ?_⟩
  · intro x hx y hy
    rw [hs x hx, hq y hy]; omega
  · intro x hx y hy
    rw [ha y hy]
    rcases List.mem_append.mp hx with hx | hx
    · rw [hs x hx]; omega
    · rw [hq x hx]; omega
  · intro x hx y hy
    rw [hv y hy]
    rcases List.mem_append.mp hx with hx | hx
    · rcases List.mem_append.mp hx with hx | hx
      · rw [hs x hx]; omega
      · rw [hq x hx]; omega
    · rw [ha x hx]; omega

theorem quick_present (s a v : List Opt) (n : Nat) :
    "quick_video_mkv" ∈ (s ++ quickOpts n ++ a ++ v).map Opt.type := by
  simp [quickOpts]

/-- C6: the assembled option list carries ordinals exactly `1..N` matching
list order, its sections are monotone in the fixed order VR-special, quick,
audio, video, and the quick options are always present. -/
theorem c6_ordinals_and_sections (vf : List VEntry) (af : List AEntry) (info : Option Meta) :
    (display_format_options vf af info).map Opt.num =
      List.range' 1 (display_format_options vf af info).length ∧
    (display_format_options vf af info).Pairwise (fun a b => secIdx a ≤ secIdx b) ∧
    "quick_video_mkv" ∈ (display_format_options vf af info).map Opt.type := by
  refine ⟨?_, ?_, ?_⟩
  · simp only [display_format_options]
    refine assembled_map_num _ af vf ?_
    by_cases hvr : isVRContent info = true
    · rw [if_pos hvr]; exact vrSpecialOpts_map_num _ _ _ _
    · rw [if_neg hvr]; rfl
  · simp only [display_format_options]
    refine assembled_pairwise _ _ _ _ ?_ (secIdx_mem_quickOpts _)
      (secIdx_mem_audioLoop _ _ _) (secIdx_mem_videoLoop _ _ _)
    intro o ho
    by_cases hvr : isVRContent info = true
    · rw [if_pos hvr] at ho
      exact secIdx_mem_vrSpecialOpts _ _ _ _ o ho
    · rw [if_neg hvr] at ho
      simp at ho
  · simp only [display_format_options]
    exact quick_present _ _ _ _

/-! ### Resolution display (claim C8) -/

/-- Counterexample to C8 as stated: a zero height is present (`some 0`)
together with a present width, yet the code's Python-truthiness guard
`if height and width:` routes it to the resolution fallback instead of the
claimed tier string `"0p (1920x0)"`. -/
theorem c8_counterexample :
    (some 0 : Option Nat).isSome = true ∧ (some 1920 : Option Nat).isSome = true ∧
    get_enhanced_resolution_info (some 0) (some 1920) none = "Unknown resolution" ∧
    "Unknown resolution" ≠
      resTier 0 ++ " (" ++ toString (1920 : Nat) ++ "x" ++ toString (0 : Nat) ++ ")" := by
  refine ⟨rfl, rfl, rfl, ?_⟩
  decide

/-- C8 amended: for both height and width present **and nonzero** the
display is `"{tier} ({width}x{height})"` with the claimed tier thresholds;
when either is absent **or zero** (Python truthiness) the display is the
descriptor resolution field, falling back to `"Unknown resolution"`; and
the claimed concrete examples hold. -/
theorem c8_resolution_amended :
    (∀ (h w : Nat) (resolution : Option String), h ≠ 0 → w ≠ 0 →
      get_enhanced_resolution_info (some h) (some w) resolution =
        resTier h ++ " (" ++ toString w ++ "x" ++ toString h ++ ")") ∧
    (∀ (height width : Option Nat) (resolution : Option String),
      height = none ∨ width = none ∨ height = some 0 ∨ width = some 0 →
      get_enhanced_resolution_info height width resolution =
        resolution.getD "Unknown resolution") ∧
    get_enhanced_resolution_info (some 2160) (some 3840) none = "4K (3840x2160)" ∧
    resTier 4320 = "8K" ∧ resTier 700 = "700p" := by
  refine ⟨?_, ?_, by decide, by decide, by decide⟩
  · intro h w resolution h1 h2
    rw [get_enhanced_resolution_info, if_pos ⟨h1, h2⟩]
  · intro height width resolution hcase
    rcases hcase with rfl | rfl | rfl | rfl
    · rfl
    · cases height <;> rfl
    · cases width with
      | none => rfl
      | some w => rw [get_enhanced_resolution_info, if_neg (by simp)]
    · cases height with
      | none => rfl
      | some h => rw [get_enhanced_resolution_info, if_neg (by simp)]

/-- Witness for the amended C8 at concrete inputs. -/
theorem c8_witness :
    ((1080 : Nat) ≠ 0 ∧ (1920 : Nat) ≠ 0) ∧
    get_enhanced_resolution_info (some 1080) (some 1920) none =
      resTier 1080 ++ " (" ++ toString (1920 : Nat) ++ "x" ++ toString (1080 : Nat) ++ ")" ∧
    get_enhanced_resolution_info none (some 1920) (some "640x480") =
      (some "640x480").getD "Unknown resolution" :=
  ⟨⟨by decide, by decide⟩,
   c8_resolution_amended.1 1080 1920 none (by decide) (by decide),
   c8_resolution_amended.2.1 none (some 1920) (some "640x480") (Or.inl rfl)⟩

/-! ### The VR-special option block (claim C10) -/

theorem sbs_not_in_section {l : List Opt} {c : Nat} (hc : c ≠ 0)
    (h : ∀ o ∈ l, secIdx o = c) : "3d_180_sbs_video" ∉ l.map Opt.type := by
  intro hmem
  obtain ⟨o, ho, hot⟩ := List.mem_map.mp hmem
  have h0 : secIdx o = 0 := by rw [secIdx, if_pos (Or.inl hot)]
  exact hc ((h o ho).symm.trans h0)

theorem c10gen (s q a v : List Opt)
    (hq : ∀ o ∈ q, secIdx o = 1) (ha : ∀ o ∈ a, secIdx o = 2)
    (hv : ∀ o ∈ v, secIdx o = 3) (X : List String)
    (hs : s.map Opt.type = X ++ ["vr_360_video", "vr_180_video", "3d_video"])
    (hX : X = [] ∨ X = ["3d_180_sbs_video"]) :
    (∃ pre post, (s ++ q ++ a ++ v).map Opt.type =
      pre ++ ["vr_360_video", "vr_180_video", "3d_video"] ++ post) ∧
    ("3d_180_sbs_video" ∈ (s ++ q ++ a ++ v).map Opt.type ↔
      X = ["3d_180_sbs_video"]) := by
  constructor
  · refine ⟨X, q.map Opt.type ++ a.map Opt.type ++ v.map Opt.type, ?_⟩
    rw [List.map_append, List.map_append, List.map_append, hs]
    simp [List.append_assoc]
  · rw [List.map_append, List.map_append, List.map_append, hs]
    simp only [List.mem_append]
    rcases hX with rfl | rfl
    · constructor
      · rintro ((((hm | hm) | hm) | hm) | hm)
        · exact absurd hm (List.not_mem_nil _)
        · exact absurd hm (by decide)
        · exact absurd hm (sbs_not_in_section (by decide) hq)
        · exact absurd hm (sbs_not_in_section (by decide) ha)
        · exact absurd hm (sbs_not_in_section (by decide) hv)
      · intro hx
        exact absurd hx (by decide)
    · simp

/-- C10: whenever the VR heuristic fires, the 360° VR, 180° VR and 3D
stereoscopic special options are emitted unconditionally and consecutively
in that order, while the 3D-180°-SBS option appears exactly when the
title/description carry joint 3d-and-180 evidence or SBS evidence occurs
in the title, the description, or the `str` rendering of the whole
video-format list (format notes included). -/
theorem c10_vr_special_options (vf : List VEntry) (af : List AEntry) (info : Option Meta)
    (h : isVRContent info = true) :
    (∃ pre post, (display_format_options vf af info).map Opt.type =
      pre ++ ["vr_360_video", "vr_180_video", "3d_video"] ++ post) ∧
    ("3d_180_sbs_video" ∈ (display_format_options vf af info).map Opt.type ↔
      (has3d180 (lowTitle info) (lowDesc info) ||
        hasSbsEvidence (lowTitle info) (lowDesc info) (pyStrVList vf)) = true) := by
  simp only [display_format_options, if_pos h]
  by_cases hc : (has3d180 (lowTitle info) (lowDesc info) ||
      hasSbsEvidence (lowTitle info) (lowDesc info) (pyStrVList vf)) = true
  · have hmain := c10gen (vrSpecialOpts vf (lowTitle info) (lowDesc info) 1)
      (quickOpts (1 + (vrSpecialOpts vf (lowTitle info) (lowDesc info) 1).length))
      (audioLoop (pySortAudio af) []
        (1 + (vrSpecialOpts vf (lowTitle info) (lowDesc info) 1).length + 3))
      (videoLoop (pySortVideo vf) []
        (1 + (vrSpecialOpts vf (lowTitle info) (lowDesc info) 1).length + 3 +
          (audioLoop (pySortAudio af) []
            (1 + (vrSpecialOpts vf (lowTitle info) (lowDesc info) 1).length + 3)).length))
      (secIdx_mem_quickOpts _) (secIdx_mem_audioLoop _ _ _) (secIdx_mem_videoLoop _ _ _)
      ["3d_180_sbs_video"] (by rw [vrSpecialOpts, if_pos hc]; rfl) (Or.inr rfl)
    exact ⟨hmain.1, by rw [hmain.2]; simp [hc]⟩
  · have hmain := c10gen (vrSpecialOpts vf (lowTitle info) (lowDesc info) 1)
      (quickOpts (1 + (vrSpecialOpts vf (lowTitle info) (lowDesc info) 1).length))
      (audioLoop (pySortAudio af) []
        (1 + (vrSpecialOpts vf (lowTitle info) (lowDesc info) 1).length + 3))
      (videoLoop (pySortVideo vf) []
        (1 + (vrSpecialOpts vf (lowTitle info) (lowDesc info) 1).length + 3 +
          (audioLoop (pySortAudio af) []
            (1 + (vrSpecialOpts vf (lowTitle info) (lowDesc info) 1).length + 3)).length))
      (secIdx_mem_quickOpts _) (secIdx_mem_audioLoop _ _ _) (secIdx_mem_videoLoop _ _ _)
      [] (by rw [vrSpecialOpts, if_neg hc]; rfl) (Or.inl rfl)
    refine ⟨hmain.1, ?_⟩
    rw [hmain.2]
    simp [hc]

/-- Witness for C10: the SBS evidence lives only in a format note, reaches
`has_sbs` through the rendered format list, and the SBS option is
emitted. -/
theorem c10_witness :
    isVRContent (some c10meta) = true ∧
    "3d_180_sbs_video" ∈
      (display_format_options [c10entry] [] (some c10meta)).map Opt.type :=
  ⟨by decide,
   ((c10_vr_special_options [c10entry] [] (some c10meta) (by decide)).2).mpr (by decide)⟩

end YouDownloader
